import Mathlib

/-!
Verification of the `DevOps_project1` repository against its specification.

The repository's procedural component is the shell orchestrator `run.sh`:
a command dispatcher (running under `set -e`) over the commands
`setup`, `start-local`, `start-docker`, `start-compose`, `test`, `build`,
`clean`, `full`, `help` (with aliases `--help` and `-h`), plus a
`trap cleanup EXIT` that fires once more when the script process exits.

We embed the script as a trace semantics: each external command the script
runs is an `Act` paired with a success flag drawn from a `ShellEnv`
describing the host (which tools exist, which npm/docker invocations
succeed, which HTTP probes answer).  `set -e` is modelled by `seqSteps`,
which executes a step list in order and aborts at the first failure.

The HTTP application (`app.js`) is embedded as a pure routing function
`appHandle` from request paths to responses, mirroring the middleware
order of the source (static files, then the three routes, then the 404
handler).
-/

/-- One observable action of `run.sh`: an external command it invokes. -/
inductive Act where
  | checkPrereqs
  | npmInstall
  | npmLint
  | npmTest
  | dockerBuild
  | launchLocal
  | launchDocker
  | launchCompose
  | invalidMode (mode : String)
  | probe (endpoint : String)
  | waitChild
  | cleanupRun
  | showHelp
  | reportUnknown (cmd : String)
  deriving DecidableEq

/-- Host environment for a run of `run.sh`: which tools resolve on PATH and
which external invocations succeed. -/
structure ShellEnv where
  hasNode : Bool
  hasNpm : Bool
  hasDocker : Bool
  hasDockerCompose : Bool
  npmInstallOk : Bool
  lintOk : Bool
  npmTestOk : Bool
  dockerBuildOk : Bool
  dockerRunOk : Bool
  composeUpOk : Bool
  healthProbeOk : Bool
  rootProbeOk : Bool
  infoProbeOk : Bool
  appWaitOk : Bool
  deriving DecidableEq

/-- Semantics of `set -e` over a list of (action, success) steps: run the
actions in order, stopping right after the first failing one.  Returns the
trace of actions actually run and whether the whole sequence succeeded. -/
def seqSteps : List (Act × Bool) → List Act × Bool
  | [] => ([], true)
  | (a, ok) :: rest =>
      if ok then
        let r := seqSteps rest
        (a :: r.1, r.2)
      else ([a], false)

/-- The `missing_tools` array built by `check_prerequisites` in `run.sh`:
one entry per required tool absent from PATH, in the source's fixed order. -/
def missingTools (e : ShellEnv) : List String :=
  (if e.hasNode then [] else ["node"]) ++
  (if e.hasNpm then [] else ["npm"]) ++
  (if e.hasDocker then [] else ["docker"]) ++
  (if e.hasDockerCompose then [] else ["docker-compose"])

/-- Step list of `check_prerequisites`: one prerequisite check that fails
(`exit 1`) exactly when some tool is missing. -/
def check_prerequisites (e : ShellEnv) : List (Act × Bool) :=
  [(.checkPrereqs, (missingTools e).isEmpty)]

/-- Step list of `install_dependencies`: `npm install`. -/
def install_dependencies (e : ShellEnv) : List (Act × Bool) :=
  [(.npmInstall, e.npmInstallOk)]

/-- Step list of `run_tests`: `npm run lint` then `npm test`. -/
def run_tests (e : ShellEnv) : List (Act × Bool) :=
  [(.npmLint, e.lintOk), (.npmTest, e.npmTestOk)]

/-- Step list of `build_docker`: `docker build -t devops-portfolio-app .`. -/
def build_docker (e : ShellEnv) : List (Act × Bool) :=
  [(.dockerBuild, e.dockerBuildOk)]

/-- Step list of `start_app MODE` from `run.sh`: `local` backgrounds
`npm start` (recording `LOCAL_PID`), `docker` runs the container, `compose`
brings the stack up; any other mode prints an error and exits 1 without
launching anything. -/
def start_app (e : ShellEnv) (mode : String) : List (Act × Bool) :=
  if mode = "local" then [(.launchLocal, true)]
  else if mode = "docker" then [(.launchDocker, e.dockerRunOk)]
  else if mode = "compose" then [(.launchCompose, e.composeUpOk)]
  else [(.invalidMode mode, false)]

/-- Step list of `test_app`: three `curl -f` probes in the source's order —
health endpoint, main page, API endpoint — each returning 1 on failure
(which aborts the enclosing run under `set -e`). -/
def test_app (e : ShellEnv) : List (Act × Bool) :=
  [(.probe "/health", e.healthProbeOk),
   (.probe "/", e.rootProbeOk),
   (.probe "/api/info", e.infoProbeOk)]

/-- Step list of `cleanup`: every command inside it is guarded by
`|| true` (or `2>/dev/null`), so the function always succeeds. -/
def cleanup : List (Act × Bool) :=
  [(.cleanupRun, true)]

/-- Step list of `run_full_pipeline`, in the source's order. -/
def run_full_pipeline (e : ShellEnv) : List (Act × Bool) :=
  check_prerequisites e ++ install_dependencies e ++ run_tests e ++
  build_docker e ++ start_app e "compose" ++ test_app e

/-- The commands of the dispatcher's `case` statement. -/
inductive Command where
  | setup
  | startLocal
  | startDocker
  | startCompose
  | test
  | build
  | clean
  | full
  | help
  | unknown (s : String)
  deriving DecidableEq

/-- The dispatcher's `case ${1:-help}` pattern match, in source order. -/
def parseCommand (s : String) : Command :=
  if s = "setup" then .setup
  else if s = "start-local" then .startLocal
  else if s = "start-docker" then .startDocker
  else if s = "start-compose" then .startCompose
  else if s = "test" then .test
  else if s = "build" then .build
  else if s = "clean" then .clean
  else if s = "full" then .full
  else if s = "help" then .help
  else if s = "--help" then .help
  else if s = "-h" then .help
  else .unknown s

/-- Whether a command string matches one of the dispatcher's named cases. -/
def recognized (s : String) : Bool :=
  match parseCommand s with
  | .unknown _ => false
  | _ => true

/-- Step list of each recognized command's `case` branch, in source order. -/
def bodySteps (e : ShellEnv) : Command → List (Act × Bool)
  | .setup => check_prerequisites e ++ install_dependencies e ++ run_tests e
  | .startLocal =>
      check_prerequisites e ++ start_app e "local" ++ test_app e ++
      [(.waitChild, e.appWaitOk)]
  | .startDocker =>
      check_prerequisites e ++ build_docker e ++ start_app e "docker" ++
      test_app e
  | .startCompose =>
      check_prerequisites e ++ start_app e "compose" ++ test_app e
  | .test => check_prerequisites e ++ install_dependencies e ++ run_tests e
  | .build => check_prerequisites e ++ build_docker e
  | .clean => cleanup
  | .full => run_full_pipeline e
  | .help => [(.showHelp, true)]
  | .unknown _ => []

/-- Execution of one `case` branch: recognized commands run their step list
under `set -e`; the default branch prints the unknown-command error and the
help text and exits 1. -/
def runBody (e : ShellEnv) : Command → List Act × Bool
  | .unknown s => ([.reportUnknown s, .showHelp], false)
  | c => seqSteps (bodySteps e c)

/-- A whole invocation of `run.sh ARG`: dispatch on `${1:-help}`, then the
`trap cleanup EXIT` fires once as the process exits, preserving the exit
status. -/
def runScript (e : ShellEnv) (arg : Option String) : List Act × Bool :=
  ((runBody e (parseCommand (arg.getD "help"))).1 ++ [.cleanupRun],
   (runBody e (parseCommand (arg.getD "help"))).2)

/-- An invocation interrupted (SIGINT) after `k` actions of the dispatched
branch: bash still runs the EXIT trap, so `cleanup` is appended to the
truncated trace. -/
def runScriptInterrupted (e : ShellEnv) (arg : Option String) (k : Nat) :
    List Act :=
  (runBody e (parseCommand (arg.getD "help"))).1.take k ++ [.cleanupRun]

/-- Whether an action launches a process or container. -/
def Act.isLaunch : Act → Bool
  | .launchLocal | .launchDocker | .launchCompose => true
  | _ => false

/-- A host where every tool exists and every external invocation succeeds. -/
def allOkEnv : ShellEnv :=
  ⟨true, true, true, true, true, true, true, true, true, true, true, true,
   true, true⟩

/-- Success of a `set -e` sequence is exactly all of its steps succeeding. -/
theorem seqSteps_ok (xs : List (Act × Bool)) :
    (seqSteps xs).2 = xs.all (fun p => p.2) := by
  induction xs with
  | nil => rfl
  | cons p rest ih =>
      obtain ⟨a, ok⟩ := p
      cases ok <;> simp [seqSteps, ih]

/-- The executed trace of a `set -e` sequence is a prefix of the full
action list. -/
theorem seqSteps_isPrefix (xs : List (Act × Bool)) :
    (seqSteps xs).1 <+: xs.map Prod.fst := by
  induction xs with
  | nil => simp [seqSteps]
  | cons p rest ih =>
      obtain ⟨a, ok⟩ := p
      cases ok
      · simp [seqSteps]
      · simpa [seqSteps] using ih

/-- When every step succeeds, the whole action list is executed. -/
theorem seqSteps_all_ok (xs : List (Act × Bool))
    (h : xs.all (fun p => p.2) = true) :
    (seqSteps xs).1 = xs.map Prod.fst := by
  induction xs with
  | nil => rfl
  | cons p rest ih =>
      obtain ⟨a, ok⟩ := p
      simp only [List.all_cons, Bool.and_eq_true] at h
      simp [seqSteps, h.1, ih h.2]

/-- When a `set -e` sequence fails, the trace is exactly the successful
steps before the first failing one, followed by that failing step. -/
theorem seqSteps_stops (xs : List (Act × Bool))
    (h : (seqSteps xs).2 = false) :
    ∃ pre p post, xs = pre ++ p :: post ∧ p.2 = false ∧
      (∀ q ∈ pre, q.2 = true) ∧
      (seqSteps xs).1 = pre.map Prod.fst ++ [p.1] := by
  induction xs with
  | nil => simp [seqSteps] at h
  | cons q rest ih =>
      obtain ⟨a, ok⟩ := q
      cases ok with
      | false =>
          exact ⟨[], (a, false), rest, by simp [seqSteps]⟩
      | true =>
          have h' : (seqSteps rest).2 = false := by
            simpa [seqSteps] using h
          obtain ⟨pre, p, post, hx, hp, hpre, htr⟩ := ih h'
          refine ⟨(a, true) :: pre, p, post, by simp [hx], hp, ?_, ?_⟩
          · intro r hr
            rcases List.mem_cons.mp hr with rfl | hr
            · rfl
            · exact hpre r hr
          · simp [seqSteps, htr]

/-!
Embedding of the HTTP application `app.js`.

The app is an Express server: `helmet()` (headers only), a static-file
middleware over `public/`, then three routes (`/`, `/health`, `/api/info`)
and a catch-all 404 JSON handler.  Every JSON value the app produces is a
string, so response bodies are either a served file or a list of
string-valued fields.
-/

/-- A calendar instant as `Date` decomposes it (UTC components). -/
structure DateTime where
  year : Nat
  month : Nat
  day : Nat
  hour : Nat
  minute : Nat
  second : Nat
  ms : Nat
  deriving DecidableEq

/-- Two-digit zero-padded decimal rendering, as `toISOString` uses. -/
def pad2 (n : Nat) : List Char :=
  [Nat.digitChar (n / 10 % 10), Nat.digitChar (n % 10)]

/-- Three-digit zero-padded decimal rendering (milliseconds field). -/
def pad3 (n : Nat) : List Char :=
  [Nat.digitChar (n / 100 % 10), Nat.digitChar (n / 10 % 10),
   Nat.digitChar (n % 10)]

/-- Four-digit zero-padded decimal rendering (year field, years 0–9999). -/
def pad4 (n : Nat) : List Char :=
  [Nat.digitChar (n / 1000 % 10), Nat.digitChar (n / 100 % 10),
   Nat.digitChar (n / 10 % 10), Nat.digitChar (n % 10)]

/-- Six-digit zero-padded decimal rendering (expanded year field). -/
def pad6 (n : Nat) : List Char :=
  [Nat.digitChar (n / 100000 % 10), Nat.digitChar (n / 10000 % 10),
   Nat.digitChar (n / 1000 % 10), Nat.digitChar (n / 100 % 10),
   Nat.digitChar (n / 10 % 10), Nat.digitChar (n % 10)]

/-- The year field of `toISOString`: four digits up to 9999, otherwise the
expanded `+YYYYYY` form (the model has no negative years). -/
def yearChars (y : Nat) : List Char :=
  if y ≤ 9999 then pad4 y else '+' :: pad6 y

/-- `Date.prototype.toISOString`: `YYYY-MM-DDTHH:mm:ss.sssZ`, with the
expanded year form beyond year 9999. -/
def toISOString (t : DateTime) : String :=
  String.mk (yearChars t.year ++ '-' :: pad2 t.month ++ '-' :: pad2 t.day ++
    'T' :: pad2 t.hour ++ ':' :: pad2 t.minute ++ ':' :: pad2 t.second ++
    '.' :: pad3 t.ms ++ ['Z'])

/-- Recognizer for the 24-character ISO-8601 date-time shape
`YYYY-MM-DDTHH:mm:ss.sssZ`. -/
def isISO8601 (s : String) : Bool :=
  match s.data with
  | [y1, y2, y3, y4, c1, m1, m2, c2, d1, d2, c3, h1, h2, c4, n1, n2, c5,
     s1, s2, c6, f1, f2, f3, c7] =>
      [y1, y2, y3, y4, m1, m2, d1, d2, h1, h2, n1, n2, s1, s2, f1, f2,
       f3].all Char.isDigit &&
      c1 == '-' && c2 == '-' && c3 == 'T' && c4 == ':' && c5 == ':' &&
      c6 == '.' && c7 == 'Z'
  | _ => false

/-- Splitting a character list on a separator character. -/
def splitOnChar (c : Char) : List Char → List (List Char)
  | [] => [[]]
  | x :: xs =>
      match splitOnChar c xs with
      | [] => [[x]]
      | g :: gs => if x == c then [] :: g :: gs else (x :: g) :: gs

/-- A nonempty all-digit character group. -/
def isNumeric (l : List Char) : Bool :=
  !l.isEmpty && l.all Char.isDigit

/-- Recognizer for a plain `MAJOR.MINOR.PATCH` semantic version string. -/
def isSemver (s : String) : Bool :=
  match splitOnChar '.' s.data with
  | [a, b, c] => isNumeric a && isNumeric b && isNumeric c
  | _ => false

/-- Response body: a served file or a JSON object with string fields. -/
inductive ResBody where
  | file (name : String)
  | json (fields : List (String × String))
  deriving DecidableEq

/-- An HTTP response of the app: status code and body. -/
structure Response where
  status : Nat
  body : ResBody
  deriving DecidableEq

/-- Process environment the app reads: `npm_package_version`, `NODE_ENV`,
and the host name. -/
structure AppEnv where
  npmPackageVersion : Option String
  nodeEnv : Option String
  hostname : String

/-- Handler of `app.get` for `/health` in `app.js`. -/
def healthHandler (env : AppEnv) (now : DateTime) : Response :=
  ⟨200, .json [("status", "healthy"),
               ("timestamp", toISOString now),
               ("version", env.npmPackageVersion.getD "1.0.0")]⟩

/-- Handler of `app.get` for `/api/info` in `app.js`. -/
def infoHandler (env : AppEnv) : Response :=
  ⟨200, .json [("message", "DevOps Portfolio Application"),
               ("environment", env.nodeEnv.getD "development"),
               ("version", env.npmPackageVersion.getD "1.0.0"),
               ("hostname", env.hostname)]⟩

/-- The catch-all middleware of `app.js`. -/
def notFoundHandler : Response :=
  ⟨404, .json [("error", "Route not found")]⟩

/-- The app's routing, in the middleware order of `app.js`:
`express.static` over the `public/` files, then the `/`, `/health` and
`/api/info` routes, then the 404 JSON handler. -/
def appHandle (staticFiles : List String) (env : AppEnv) (now : DateTime)
    (path : String) : Response :=
  if staticFiles.contains path then ⟨200, .file path⟩
  else if path = "/" then ⟨200, .file "public/index.html"⟩
  else if path = "/health" then healthHandler env now
  else if path = "/api/info" then infoHandler env
  else notFoundHandler

/-- Digit characters of values below ten are decimal digits. -/
theorem digitChar_isDigit_of_lt (n : Nat) (h : n < 10) :
    (Nat.digitChar n).isDigit = true := by
  interval_cases n <;> rfl

/-- Digit characters of remainders modulo ten are decimal digits. -/
theorem digitChar_mod_isDigit (n : Nat) :
    (Nat.digitChar (n % 10)).isDigit = true :=
  digitChar_isDigit_of_lt _ (Nat.mod_lt _ (by norm_num))

/-- Up to year 9999 the string `toISOString` renders has the 24-character
ISO-8601 shape. -/
theorem toISOString_shape (t : DateTime) (h : t.year ≤ 9999) :
    isISO8601 (toISOString t) = true := by
  simp [toISOString, isISO8601, yearChars, h, pad4, pad3, pad2, List.all,
    digitChar_mod_isDigit]

set_option maxHeartbeats 1000000 in
/-- Only the default branch of the dispatcher produces `Command.unknown`,
and it does so with the original argument string. -/
theorem parseCommand_unknown_eq (c s : String)
    (h : parseCommand c = Command.unknown s) : s = c := by
  simp only [parseCommand] at h
  split_ifs at h <;>
    first
      | exact Command.noConfusion h
      | (injection h with h'; exact h'.symm)

/-- A string outside the dispatcher's named cases parses to itself as an
unknown command. -/
theorem parse_of_unrecognized (c : String) (h : recognized c = false) :
    parseCommand c = Command.unknown c := by
  unfold recognized at h
  cases hp : parseCommand c with
  | setup => rw [hp] at h; simp at h
  | startLocal => rw [hp] at h; simp at h
  | startDocker => rw [hp] at h; simp at h
  | startCompose => rw [hp] at h; simp at h
  | test => rw [hp] at h; simp at h
  | build => rw [hp] at h; simp at h
  | clean => rw [hp] at h; simp at h
  | full => rw [hp] at h; simp at h
  | help => rw [hp] at h; simp at h
  | unknown s => rw [parseCommand_unknown_eq c s hp]

/-- A recognized string never parses to an unknown command. -/
theorem parse_of_recognized (c : String) (h : recognized c = true) :
    ∀ s, parseCommand c ≠ Command.unknown s := by
  intro s hs
  unfold recognized at h
  rw [hs] at h
  simp at h

/-- On non-default commands, the dispatcher branch is its step list run
under `set -e`. -/
theorem runBody_eq_seqSteps (e : ShellEnv) (c : Command)
    (h : ∀ s, c ≠ Command.unknown s) :
    runBody e c = seqSteps (bodySteps e c) := by
  cases c <;> first
    | rfl
    | exact absurd rfl (h _)

/-- **C2.** `check_prerequisites` succeeds exactly when no required tool is
missing, and the `missing_tools` list it reports contains each of the four
required tools precisely when that tool is absent — every absent tool, not
merely the first one found. -/
theorem check_prerequisites_reports_all (e : ShellEnv) :
    ((seqSteps (check_prerequisites e)).2 = true ↔ missingTools e = []) ∧
    ("node" ∈ missingTools e ↔ e.hasNode = false) ∧
    ("npm" ∈ missingTools e ↔ e.hasNpm = false) ∧
    ("docker" ∈ missingTools e ↔ e.hasDocker = false) ∧
    ("docker-compose" ∈ missingTools e ↔ e.hasDockerCompose = false) := by
  obtain ⟨n, p, d, dc, _, _, _, _, _, _, _, _, _, _⟩ := e
  cases n <;> cases p <;> cases d <;> cases dc <;>
    simp [seqSteps, check_prerequisites, missingTools]

/-- **C3.** `run_tests` invokes the lint step first; when lint succeeds the
unit-test step follows it in order, and when lint exits non-zero the
unit-test step is never invoked and the run fails. -/
theorem run_tests_fail_fast (e : ShellEnv) :
    ((seqSteps (run_tests e)).1.head? = some Act.npmLint) ∧
    (e.lintOk = true →
      (seqSteps (run_tests e)).1 = [Act.npmLint, Act.npmTest]) ∧
    (e.lintOk = false →
      Act.npmTest ∉ (seqSteps (run_tests e)).1 ∧
      (seqSteps (run_tests e)).2 = false) := by
  cases h : e.lintOk <;> cases h2 : e.npmTestOk <;>
    simp [run_tests, seqSteps, h, h2]

/-- Witness for C3 at a host where the lint step fails. -/
theorem run_tests_fail_fast_witness :
    Act.npmTest ∉ (seqSteps (run_tests { allOkEnv with lintOk := false })).1 ∧
    (seqSteps (run_tests { allOkEnv with lintOk := false })).2 = false :=
  (run_tests_fail_fast { allOkEnv with lintOk := false }).2.2 rfl

/-- **C7.** For every mode value outside local/docker/compose, `start_app`
fails, launches no process and no container, and records no local process
identifier. -/
theorem start_app_invalid_mode (e : ShellEnv) (m : String)
    (h1 : m ≠ "local") (h2 : m ≠ "docker") (h3 : m ≠ "compose") :
    start_app e m = [(.invalidMode m, false)] ∧
    (seqSteps (start_app e m)).2 = false ∧
    (∀ a ∈ (seqSteps (start_app e m)).1, a.isLaunch = false) ∧
    Act.launchLocal ∉ (seqSteps (start_app e m)).1 := by
  simp [start_app, h1, h2, h3, seqSteps, Act.isLaunch]

/-- Witness for C7 at the concrete invalid mode string `"remote"`. -/
theorem start_app_invalid_mode_witness :
    start_app allOkEnv "remote" = [(.invalidMode "remote", false)] ∧
    (seqSteps (start_app allOkEnv "remote")).2 = false ∧
    (∀ a ∈ (seqSteps (start_app allOkEnv "remote")).1, a.isLaunch = false) ∧
    Act.launchLocal ∉ (seqSteps (start_app allOkEnv "remote")).1 :=
  start_app_invalid_mode allOkEnv "remote" (by decide) (by decide) (by decide)

/-- **C5 counterexample.** On a fully healthy host the smoke test's probe
order is health endpoint, root page, info endpoint — not root page first as
the claim states. -/
theorem smoke_test_order_counterexample :
    (seqSteps (test_app allOkEnv)).1 =
      [Act.probe "/health", Act.probe "/", Act.probe "/api/info"] ∧
    (seqSteps (test_app allOkEnv)).1 ≠
      [Act.probe "/", Act.probe "/health", Act.probe "/api/info"] := by
  decide

/-- **C5 (amended).** The smoke test issues exactly three HTTP GET probes
against the fixed local port in the order health endpoint, root page, info
endpoint; it succeeds iff all three probes succeed; and on a failing probe
it stops at that probe — no retry and no remaining probes — with the
failing probe the last action of its trace. -/
theorem smoke_test_spec (e : ShellEnv) :
    ((test_app e).map Prod.fst =
      [Act.probe "/health", Act.probe "/", Act.probe "/api/info"]) ∧
    ((seqSteps (test_app e)).1 <+:
      [Act.probe "/health", Act.probe "/", Act.probe "/api/info"]) ∧
    ((seqSteps (test_app e)).2 = true ↔
      e.healthProbeOk = true ∧ e.rootProbeOk = true ∧
      e.infoProbeOk = true) ∧
    ((seqSteps (test_app e)).2 = false →
      ∃ pre p post, test_app e = pre ++ p :: post ∧ p.2 = false ∧
        (∀ q ∈ pre, q.2 = true) ∧
        (seqSteps (test_app e)).1 = pre.map Prod.fst ++ [p.1]) := by
  refine ⟨rfl, ?_, ?_, seqSteps_stops _⟩
  · exact seqSteps_isPrefix (test_app e)
  · rw [seqSteps_ok]; simp [test_app]

/-- Witness for the amended C5 at a host whose root-page probe fails. -/
theorem smoke_test_spec_witness :
    ∃ pre p post,
      test_app { allOkEnv with rootProbeOk := false } = pre ++ p :: post ∧
      p.2 = false ∧ (∀ q ∈ pre, q.2 = true) ∧
      (seqSteps (test_app { allOkEnv with rootProbeOk := false })).1 =
        pre.map Prod.fst ++ [p.1] :=
  (smoke_test_spec { allOkEnv with rootProbeOk := false }).2.2.2 (by decide)

/-- The ordered action sequence of the full pipeline. -/
def fullPipelineActs : List Act :=
  [.checkPrereqs, .npmInstall, .npmLint, .npmTest, .dockerBuild,
   .launchCompose, .probe "/health", .probe "/", .probe "/api/info"]

/-- **C4.** `run_full_pipeline` performs exactly the sequence prerequisites
check, dependency install, lint, unit tests, image build, compose start,
smoke probes, in that order; it succeeds iff every step succeeds; when a
step fails the executed trace stops at that step (no later step runs); and
the `full` invocation still runs cleanup afterwards. -/
theorem full_pipeline_spec (e : ShellEnv) :
    ((run_full_pipeline e).map Prod.fst = fullPipelineActs) ∧
    ((seqSteps (run_full_pipeline e)).1 <+: fullPipelineActs) ∧
    ((seqSteps (run_full_pipeline e)).2 = true ↔
      (run_full_pipeline e).all (fun p => p.2) = true) ∧
    ((seqSteps (run_full_pipeline e)).2 = false →
      ∃ pre p post, run_full_pipeline e = pre ++ p :: post ∧ p.2 = false ∧
        (∀ q ∈ pre, q.2 = true) ∧
        (seqSteps (run_full_pipeline e)).1 = pre.map Prod.fst ++ [p.1]) ∧
    ((runScript e (some "full")).1 =
      (seqSteps (run_full_pipeline e)).1 ++ [Act.cleanupRun]) := by
  refine ⟨rfl, seqSteps_isPrefix _, ?_, seqSteps_stops _, rfl⟩
  rw [seqSteps_ok]

/-- Witness for C4 at a host whose docker build fails. -/
theorem full_pipeline_spec_witness :
    ∃ pre p post,
      run_full_pipeline { allOkEnv with dockerBuildOk := false } =
        pre ++ p :: post ∧ p.2 = false ∧ (∀ q ∈ pre, q.2 = true) ∧
      (seqSteps (run_full_pipeline
        { allOkEnv with dockerBuildOk := false })).1 =
        pre.map Prod.fst ++ [p.1] :=
  (full_pipeline_spec { allOkEnv with dockerBuildOk := false }).2.2.2.1
    (by decide)

/-- **C6.** An absent command defaults to help and exits 0; an unrecognized
command prints the help text, reports the unknown command, and exits
non-zero; a recognized command exits 0 exactly when all of its steps
succeed. -/
theorem cli_dispatch_spec (e : ShellEnv) :
    ((runScript e none).2 = true ∧
     (runScript e none).1 = [Act.showHelp, Act.cleanupRun]) ∧
    (∀ c, recognized c = false →
      (runScript e (some c)).2 = false ∧
      Act.showHelp ∈ (runScript e (some c)).1 ∧
      Act.reportUnknown c ∈ (runScript e (some c)).1) ∧
    (∀ c, recognized c = true →
      ((runScript e (some c)).2 = true ↔
        (bodySteps e (parseCommand c)).all (fun p => p.2) = true)) := by
  refine ⟨⟨rfl, rfl⟩, ?_, ?_⟩
  · intro c hc
    have hp := parse_of_unrecognized c hc
    simp [runScript, hp, runBody]
  · intro c hc
    have hb := runBody_eq_seqSteps e (parseCommand c)
      (parse_of_recognized c hc)
    simp [runScript, hb, seqSteps_ok]

/-- Witness for C6 at the unrecognized command `frobnicate`. -/
theorem cli_dispatch_spec_witness :
    (runScript allOkEnv (some "frobnicate")).2 = false ∧
    Act.showHelp ∈ (runScript allOkEnv (some "frobnicate")).1 ∧
    Act.reportUnknown "frobnicate" ∈
      (runScript allOkEnv (some "frobnicate")).1 :=
  (cli_dispatch_spec allOkEnv).2.1 "frobnicate" (by decide)

/-- No command branch other than `clean` ever invokes `cleanup` itself. -/
theorem cleanupRun_not_in_bodySteps (e : ShellEnv) (c : Command)
    (h : c ≠ Command.clean) :
    Act.cleanupRun ∉ (bodySteps e c).map Prod.fst := by
  cases c <;> simp_all [bodySteps, check_prerequisites,
    install_dependencies, run_tests, build_docker, start_app, test_app,
    run_full_pipeline, cleanup]

/-- The dispatched branch itself invokes `cleanup` once for the `clean`
command and never otherwise. -/
theorem cleanup_count_body (e : ShellEnv) (c : Command) :
    (runBody e c).1.count Act.cleanupRun =
      if c = Command.clean then 1 else 0 := by
  cases c
  case clean => rfl
  case unknown s => rfl
  all_goals
    exact (List.count_eq_zero.mpr fun hmem =>
      absurd (((seqSteps_isPrefix _).sublist).subset hmem)
        (cleanupRun_not_in_bodySteps e _ (by decide))).trans (by decide)

/-- **C1 (amended).** Every invocation runs `cleanup` at least once before
exit, interrupts included; an uninterrupted invocation of any command other
than `clean` runs it exactly once (via the EXIT trap), while an
uninterrupted `clean` invocation runs it exactly twice — once from the
`clean` case branch and once more from the EXIT trap. -/
theorem cleanup_exactly_once_amended (e : ShellEnv) (arg : Option String) :
    (parseCommand (arg.getD "help") ≠ Command.clean →
      (runScript e arg).1.count Act.cleanupRun = 1) ∧
    (parseCommand (arg.getD "help") = Command.clean →
      (runScript e arg).1.count Act.cleanupRun = 2) ∧
    (∀ k, 1 ≤ (runScriptInterrupted e arg k).count Act.cleanupRun) := by
  have hbody := cleanup_count_body e (parseCommand (arg.getD "help"))
  refine ⟨?_, ?_, ?_⟩
  · intro h
    rw [if_neg h] at hbody
    simp [runScript, List.count_append, hbody]
  · intro h
    rw [if_pos h] at hbody
    simp [runScript, List.count_append, hbody]
  · intro k
    simp [runScriptInterrupted, List.count_append]

/-- **C1 counterexample.** An invocation of `run.sh clean` invokes
`cleanup` twice — from the `clean` case branch and again from the EXIT
trap — so cleanup is not invoked exactly once for every command. -/
theorem clean_command_cleanup_twice :
    (runScript allOkEnv (some "clean")).1.count Act.cleanupRun = 2 ∧
    (runScript allOkEnv (some "clean")).1.count Act.cleanupRun ≠ 1 := by
  decide

/-- Witness for the amended C1: a `setup` invocation runs cleanup once. -/
theorem cleanup_exactly_once_amended_witness :
    (runScript allOkEnv (some "setup")).1.count Act.cleanupRun = 1 :=
  (cleanup_exactly_once_amended allOkEnv (some "setup")).1 (by decide)

/-- Number of launch actions (local process, container, compose stack) in
a trace. -/
def launchCount (t : List Act) : Nat :=
  t.countP (fun a => a.isLaunch)

/-- The projection of each command branch's step list to its actions. -/
def bodyActs : Command → List Act
  | .setup => [.checkPrereqs, .npmInstall, .npmLint, .npmTest]
  | .startLocal =>
      [.checkPrereqs, .launchLocal, .probe "/health", .probe "/",
       .probe "/api/info", .waitChild]
  | .startDocker =>
      [.checkPrereqs, .dockerBuild, .launchDocker, .probe "/health",
       .probe "/", .probe "/api/info"]
  | .startCompose =>
      [.checkPrereqs, .launchCompose, .probe "/health", .probe "/",
       .probe "/api/info"]
  | .test => [.checkPrereqs, .npmInstall, .npmLint, .npmTest]
  | .build => [.checkPrereqs, .dockerBuild]
  | .clean => [.cleanupRun]
  | .full => fullPipelineActs
  | .help => [.showHelp]
  | .unknown _ => []

/-- The action projection of a branch's step list does not depend on the
host environment. -/
theorem bodySteps_map_fst (e : ShellEnv) (c : Command) :
    (bodySteps e c).map Prod.fst = bodyActs c := by
  cases c <;> rfl

/-- Recordings of the local process identifier are launch actions. -/
theorem count_launchLocal_le (t : List Act) :
    t.count Act.launchLocal ≤ launchCount t := by
  rw [List.count_eq_countP]
  apply List.countP_mono_left
  intro a _ h
  have : a = Act.launchLocal := by simpa using h
  subst this
  rfl

/-- Every command branch's full step sequence contains at most one launch
action. -/
theorem launchCount_bodySteps (e : ShellEnv) (c : Command) :
    launchCount ((bodySteps e c).map Prod.fst) ≤ 1 := by
  rw [bodySteps_map_fst]
  cases c
  case unknown s => exact Nat.zero_le 1
  all_goals decide

/-- The dispatched branch launches at most one process or container. -/
theorem launchCount_runBody (e : ShellEnv) (c : Command) :
    launchCount (runBody e c).1 ≤ 1 := by
  cases c
  case unknown s =>
    simp [runBody, launchCount, List.countP_cons, Act.isLaunch]
  all_goals
    exact Nat.le_trans (((seqSteps_isPrefix _).sublist).countP_le _)
      (launchCount_bodySteps e _)

/-- **C9.** Each invocation's trace contains at most one launch action —
in particular the local process identifier is recorded at most once — and
always ends with the cleanup that releases the tracked handle. -/
theorem single_handle_invariant (e : ShellEnv) (arg : Option String) :
    launchCount (runScript e arg).1 ≤ 1 ∧
    (runScript e arg).1.count Act.launchLocal ≤ 1 ∧
    (runScript e arg).1.getLast? = some Act.cleanupRun := by
  have h1 : launchCount (runScript e arg).1 ≤ 1 := by
    have h := launchCount_runBody e (parseCommand (arg.getD "help"))
    simpa [runScript, launchCount, List.countP_append, List.countP_cons,
      Act.isLaunch] using h
  refine ⟨h1, le_trans (count_launchLocal_le _) h1, ?_⟩
  simp [runScript]

/-- **C8.** `GET /health` responds 200 with a JSON body whose fields are
exactly status, timestamp and version: status is the constant `healthy`,
the timestamp is the ISO-8601 rendering of the current instant, and the
version is `npm_package_version` defaulting to `1.0.0` — a semantic
version whenever the package version is one, and in particular when
defaulted. -/
theorem health_endpoint_spec (staticFiles : List String) (env : AppEnv)
    (now : DateTime) (hstat : staticFiles.contains "/health" = false)
    (hyear : now.year ≤ 9999)
    (hver : ∀ v, env.npmPackageVersion = some v → isSemver v = true) :
    appHandle staticFiles env now "/health" =
      ⟨200, .json [("status", "healthy"),
                   ("timestamp", toISOString now),
                   ("version", env.npmPackageVersion.getD "1.0.0")]⟩ ∧
    isISO8601 (toISOString now) = true ∧
    isSemver (env.npmPackageVersion.getD "1.0.0") = true := by
  have hstat' : "/health" ∉ staticFiles := by simpa using hstat
  refine ⟨?_, toISOString_shape now hyear, ?_⟩
  · simp [appHandle, hstat', healthHandler]
  · cases hv : env.npmPackageVersion with
    | none => decide
    | some v => simpa using hver v hv

/-- Witness for C8 at a concrete request instant and environment. -/
theorem health_endpoint_spec_witness :
    appHandle [] ⟨none, none, "ci-host"⟩ ⟨2024, 2, 5, 10, 30, 0, 0⟩
        "/health" =
      ⟨200, .json [("status", "healthy"),
                   ("timestamp", toISOString ⟨2024, 2, 5, 10, 30, 0, 0⟩),
                   ("version", "1.0.0")]⟩ ∧
    isISO8601 (toISOString ⟨2024, 2, 5, 10, 30, 0, 0⟩) = true ∧
    isSemver "1.0.0" = true :=
  health_endpoint_spec [] ⟨none, none, "ci-host"⟩ ⟨2024, 2, 5, 10, 30, 0, 0⟩
    rfl (by decide) (fun v h => Option.noConfusion h)

/-- **C10.** Every request whose path is neither a served static file nor
one of the three routes receives status 404 with the JSON body
`error: Route not found`. -/
theorem unknown_route_404 (staticFiles : List String) (env : AppEnv)
    (now : DateTime) (p : String)
    (h0 : staticFiles.contains p = false) (h1 : p ≠ "/")
    (h2 : p ≠ "/health") (h3 : p ≠ "/api/info") :
    appHandle staticFiles env now p =
      ⟨404, .json [("error", "Route not found")]⟩ := by
  have h0' : p ∉ staticFiles := by simpa using h0
  simp [appHandle, h0', h1, h2, h3, notFoundHandler]

/-- Witness for C10 at the path `/nonexistent` exercised by the repo's
test suite. -/
theorem unknown_route_404_witness :
    appHandle [] ⟨none, none, "ci-host"⟩ ⟨2024, 2, 5, 10, 30, 0, 0⟩
        "/nonexistent" =
      ⟨404, .json [("error", "Route not found")]⟩ :=
  unknown_route_404 [] ⟨none, none, "ci-host"⟩ ⟨2024, 2, 5, 10, 30, 0, 0⟩
    "/nonexistent" rfl (by decide) (by decide) (by decide)
